import Mathlib

/-!
Shallow embedding of `src/dukascopy/builder/extract.py`.

The module exports Dukascopy CSV bar data through a single DuckDB COPY
statement.  We embed:
  * timestamps as calendar records at second granularity (the source schema
    binds the `time` column to DuckDB TIMESTAMP; Dukascopy bars are
    whole-second),
  * the SELECT / WHERE clause built by `extract_symbol` as executable Lean
    functions on lists of rows,
  * the side-effecting control flow (print, mkdir, connect, COPY execution,
    close) as an explicit event trace, with the engine's success or failure
    supplied as an oracle parameter `execOk` and the generated `uuid4` value
    supplied as a parameter `uuidStr`.
-/

/-- A calendar timestamp at second granularity, the embedding of a DuckDB
TIMESTAMP value as read from the `time` column. -/
structure Timestamp where
  year : Nat
  month : Nat
  day : Nat
  hour : Nat
  minute : Nat
  second : Nat
deriving DecidableEq, Repr

/-- Mixed-radix encoding of a timestamp.  On calendar-valid timestamps
(month ≤ 12, day ≤ 31, hour ≤ 23, minute ≤ 59, second ≤ 59) this is an
order embedding into `Nat`, so `key`-comparison coincides with DuckDB's
chronological TIMESTAMP comparison. -/
def Timestamp.key (t : Timestamp) : Nat :=
  ((((t.year * 13 + t.month) * 32 + t.day) * 24 + t.hour) * 60 + t.minute) * 60 + t.second

/-- Calendar validity of a timestamp (every value DuckDB materialises as a
TIMESTAMP satisfies this). -/
def Timestamp.Valid (t : Timestamp) : Prop :=
  t.month ≤ 12 ∧ t.day ≤ 31 ∧ t.hour ≤ 23 ∧ t.minute ≤ 59 ∧ t.second ≤ 59

instance (t : Timestamp) : Decidable t.Valid := by
  unfold Timestamp.Valid
  infer_instance

/-- The decimal digit character for `k % 10` (code point 48 + value). -/
def dChar (k : Nat) : Char := Char.ofNat (48 + k % 10)

/-- Decimal digit character of `d` (lowest decimal digit). -/
def digitChar (d : Nat) : Char := dChar (d % 10)

/-- Parse a decimal digit character, the per-character step of `strptime`:
its numeric value when it lies in the ASCII digit range, `none` otherwise. -/
def charToDigit (c : Char) : Option Nat :=
  if '0' ≤ c ∧ c ≤ '9' then some (c.toNat - 48) else none

/-- Zero-padded 2-digit decimal rendering (exact for `n ≤ 99`). -/
def pad2 (n : Nat) : List Char := [digitChar (n / 10), digitChar n]

/-- Zero-padded 4-digit decimal rendering (exact for `n ≤ 9999`). -/
def pad4 (n : Nat) : List Char :=
  [digitChar (n / 1000), digitChar (n / 100), digitChar (n / 10), digitChar n]

/-- `CAST(t AS VARCHAR)` for a second-granularity TIMESTAMP: DuckDB renders
it as `YYYY-MM-DD HH:MM:SS`. -/
def timestampCast (t : Timestamp) : String :=
  String.mk (pad4 t.year ++ ['-'] ++ pad2 t.month ++ ['-'] ++ pad2 t.day
    ++ [' '] ++ pad2 t.hour ++ [':'] ++ pad2 t.minute ++ [':'] ++ pad2 t.second)

/-- `strptime(s, CSV_TIMESTAMP_FORMAT)` with
`CSV_TIMESTAMP_FORMAT = %Y-%m-%d %H:%M:%S`: parse the fixed-width canonical
rendering, `none` on any format mismatch (DuckDB raises there). -/
def strptimeTs (s : String) : Option Timestamp :=
  match s.data with
  | [y1, y2, y3, y4, c1, mo1, mo2, c2, d1, d2, c3, h1, h2, c4, mi1, mi2, c5, s1, s2] =>
    if c1 = '-' ∧ c2 = '-' ∧ c3 = ' ' ∧ c4 = ':' ∧ c5 = ':' then
      match charToDigit y1, charToDigit y2, charToDigit y3, charToDigit y4,
            charToDigit mo1, charToDigit mo2, charToDigit d1, charToDigit d2,
            charToDigit h1, charToDigit h2, charToDigit mi1, charToDigit mi2,
            charToDigit s1, charToDigit s2 with
      | some a, some b, some c, some d, some e, some f, some g, some h,
        some i, some j, some k, some l, some m, some n =>
        some ⟨((a * 10 + b) * 10 + c) * 10 + d, e * 10 + f, g * 10 + h,
              i * 10 + j, k * 10 + l, m * 10 + n⟩
      | _, _, _, _, _, _, _, _, _, _, _, _, _, _ => none
    else none
  | _ => none

/-- The timestamp normalisation performed by the SELECT clause:
`strptime(CAST(Time AS VARCHAR), CSV_TIMESTAMP_FORMAT)`.  The `getD`
default branch is unreachable (see `strptimeTs_timestampCast`). -/
def normalizeTime (t : Timestamp) : Timestamp :=
  (strptimeTs (timestampCast t)).getD t

/-- The `year` column of the SELECT clause:
`CAST(strftime(Time, %Y) AS VARCHAR)`, the zero-padded 4-digit year. -/
def yearStr (t : Timestamp) : String := String.mk (pad4 t.year)

/-- One source record of the fixed Dukascopy schema
(time, open, high, low, close, volume).  The five DOUBLE columns are passed
through the pipeline untouched, so they are carried by an opaque discrete
payload (`Int`) on which the embedding never computes. -/
structure Row where
  time : Timestamp
  o : Int
  h : Int
  l : Int
  c : Int
  v : Int
deriving DecidableEq, Repr

/-- One output record produced by the SELECT clause of the COPY statement:
symbol, timeframe, year, time, open, high, low, close, volume. -/
structure OutRow where
  symbol : String
  timeframe : String
  year : String
  time : Timestamp
  o : Int
  h : Int
  l : Int
  c : Int
  v : Int
deriving DecidableEq, Repr

/-- The `options` dict of a task: each key either absent (`none`) or bound.
Unrecognised keys are ignored by the code, so they are not modelled. -/
structure Options where
  output_type : Option String
  partition : Option Bool
  compression : Option String
  output_dir : Option String
  dry_run : Option Bool
deriving DecidableEq, Repr

/-- The 7-tuple task descriptor passed to `extract_symbol`.  The window
bounds are carried as parsed TIMESTAMP values (the engine parses the
`TIMESTAMP after_str / until_str` literals). -/
structure ExtractTask where
  symbol : String
  timeframe : String
  input_filepath : String
  afterTs : Timestamp
  untilTs : Timestamp
  modifier : String
  options : Options
deriving DecidableEq, Repr

/-- `str.upper()` on a Python string, embedded as a per-character map
(the option strings are ASCII). -/
def toUpperStr (s : String) : String := String.mk (s.data.map Char.toUpper)

/-- `str.lower()` on a Python string, embedded as a per-character map. -/
def toLowerStr (s : String) : String := String.mk (s.data.map Char.toLower)

/-- `options.get(output_type, parquet).upper()` -/
def resolvedOutputType (o : Options) : String := toUpperStr (o.output_type.getD "parquet")

/-- `options.get(partition, False)` -/
def resolvedPartition (o : Options) : Bool := o.partition.getD false

/-- `options.get(compression, zstd).upper()` -/
def resolvedCompression (o : Options) : String := toUpperStr (o.compression.getD "zstd")

/-- `options.get(output_dir, ./data/temp/ + output_type.lower())` -/
def rootOutputDir (o : Options) : String :=
  o.output_dir.getD ("./data/temp/" ++ toLowerStr (resolvedOutputType o))

/-- The format-options block of the COPY statement in the PARQUET branch. -/
structure FormatOptions where
  format : String
  partition_by : Option (List String)
  filename_pattern : Option String
  compression : String
  header : Option Bool
  delimiter : Option String
  overwrite_or_ignore : Bool
deriving DecidableEq, Repr

/-- Format options of the PARQUET branch: partitioned by (symbol, year),
per-part unique filename pattern, OVERWRITE_OR_IGNORE. -/
def parquetFmt (compression : String) : FormatOptions :=
  ⟨"PARQUET", some ["symbol", "year"], some "part_\x7buuid\x7d", compression,
   none, none, true⟩

/-- Format options of the partitioned CSV branch. -/
def csvPartFmt (compression : String) : FormatOptions :=
  ⟨"CSV", some ["symbol", "year"], some "part_\x7buuid\x7d.csv", compression,
   some true, some ",", true⟩

/-- Format options of the flat (unpartitioned) CSV branch. -/
def csvFlatFmt (compression : String) : FormatOptions :=
  ⟨"CSV", none, none, compression, some true, some ",", true⟩

/-- The per-worker flat CSV output path:
`root / {symbol}_{timeframe}_{uuid4}.csv`. -/
def flatCsvPath (root sym tf uuidStr : String) : String :=
  root ++ "/" ++ sym ++ "_" ++ tf ++ "_" ++ uuidStr ++ ".csv"

/-- The basic time-window test of the WHERE clause on one timestamp:
`t >= TIMESTAMP after AND t < TIMESTAMP until`
(start inclusive, end exclusive). -/
def inWindowTs (task : ExtractTask) (t : Timestamp) : Bool :=
  decide (task.afterTs.key ≤ t.key) && decide (t.key < task.untilTs.key)

/-- The basic time-window filter of the WHERE clause applied to a row. -/
def inWindow (task : ExtractTask) (r : Row) : Bool :=
  inWindowTs task r.time

/-- One step of the running maximum over the `time` column. -/
def maxStep (m : Timestamp) (x : Row) : Timestamp :=
  if m.key < x.time.key then x.time else m

/-- `SELECT MAX(time) FROM read_csv_auto(input_filepath)`: the maximum
timestamp over the whole unfiltered source file, NULL (`none`) when the
file holds no rows. -/
def maxTime (rows : List Row) : Option Timestamp :=
  match rows with
  | [] => none
  | r :: rs => some (rs.foldl maxStep r.time)

/-- The full WHERE clause applied to one row: the window filter, plus — when
`modifier == skiplast` — `time < MAX(time over the whole source file)`
(a comparison against NULL keeps no row, matching SQL semantics on an
empty source). -/
def keepRow (task : ExtractTask) (fileRows : List Row) (r : Row) : Bool :=
  inWindow task r &&
    (if task.modifier = "skiplast" then
      match maxTime fileRows with
      | some m => decide (r.time.key < m.key)
      | none => false
    else true)

/-- The SELECT projection applied to one kept row: inject `symbol`,
`timeframe`, derive `year`, normalise `time`, pass the five value columns
through unchanged. -/
def transformRow (task : ExtractTask) (r : Row) : OutRow :=
  ⟨task.symbol, task.timeframe, yearStr r.time, normalizeTime r.time,
   r.o, r.h, r.l, r.c, r.v⟩

/-- Denotation of the inner SELECT of the COPY statement: the dataset the
bulk copy writes, given the source file's rows. -/
def copyDataset (task : ExtractTask) (fileRows : List Row) : List OutRow :=
  (fileRows.filter (keepRow task fileRows)).map (transformRow task)

/-- Observable side effects of one `extract_symbol` call, in order. -/
inductive Event where
  | print (msg : String)
  | mkdir (path : String)
  | connect
  | executeCopy (path : String) (fmt : FormatOptions) (dataset : List OutRow)
  | closeCon
deriving DecidableEq, Repr

/-- Errors `extract_symbol` can raise: `KeyError` from `options[dry_run]`,
`ValueError` for an unsupported output type, and any error raised by the
engine while executing the COPY. -/
inductive ExtractError where
  | keyError (key : String)
  | valueError (msg : String)
  | engineError
deriving DecidableEq, Repr

/-- The message printed by the dry-run branch. -/
def dryRunMsg (task : ExtractTask) : String :=
  "DRY-RUN: " ++ task.symbol ++ "/" ++ task.timeframe ++ " => "
    ++ task.input_filepath ++ " (mode: " ++ resolvedOutputType task.options
    ++ ", modifier: " ++ task.modifier ++ ")"

/-- The tail of the call after the COPY statement is assembled:
`con = duckdb.connect; con.execute(copy_sql); con.close; return True`.
There is no try/finally: when `execute` raises (`execOk = false`) the error
propagates and `close` is never invoked. -/
def runCopy (task : ExtractTask) (fileRows : List Row) (outputPath : String)
    (fmt : FormatOptions) (mkEv : Event) (execOk : Bool) :
    List Event × Except ExtractError Bool :=
  if execOk then
    ([mkEv, Event.connect, Event.executeCopy outputPath fmt (copyDataset task fileRows),
      Event.closeCon], Except.ok true)
  else
    ([mkEv, Event.connect, Event.executeCopy outputPath fmt (copyDataset task fileRows)],
      Except.error ExtractError.engineError)

/-- Embedding of `extract_symbol(task)`.  `fileRows` is the content of the
source file at `task.input_filepath`; `uuidStr` the `uuid4` value generated
by the call; `execOk` whether the engine's COPY execution succeeds.  The
result is the ordered event trace together with the returned value
(`Except.ok`) or the raised error (`Except.error`). -/
def extract_symbol (task : ExtractTask) (fileRows : List Row) (uuidStr : String)
    (execOk : Bool) : List Event × Except ExtractError Bool :=
  match task.options.dry_run with
  | none => ([], Except.error (ExtractError.keyError "dry_run"))
  | some dryRun =>
    if dryRun then
      ([Event.print (dryRunMsg task)], Except.ok false)
    else
      if resolvedOutputType task.options = "PARQUET" then
        runCopy task fileRows (rootOutputDir task.options)
          (parquetFmt (resolvedCompression task.options))
          (Event.mkdir (rootOutputDir task.options)) execOk
      else if resolvedOutputType task.options = "CSV" then
        if resolvedPartition task.options then
          runCopy task fileRows (rootOutputDir task.options)
            (csvPartFmt (resolvedCompression task.options))
            (Event.mkdir (rootOutputDir task.options)) execOk
        else
          runCopy task fileRows
            (flatCsvPath (rootOutputDir task.options) task.symbol task.timeframe uuidStr)
            (csvFlatFmt (resolvedCompression task.options))
            (Event.mkdir (rootOutputDir task.options)) execOk
      else
        ([Event.mkdir (rootOutputDir task.options)],
          Except.error (ExtractError.valueError
            ("Unsupported output type: " ++ resolvedOutputType task.options)))

/-- Embedding of `fork_extract(task)`, the multiprocessing-pool wrapper:
it calls `extract_symbol(task)` and returns its result. -/
def fork_extract (task : ExtractTask) (fileRows : List Row) (uuidStr : String)
    (execOk : Bool) : List Event × Except ExtractError Bool :=
  extract_symbol task fileRows uuidStr execOk

/-- `task` with its modifier replaced. -/
def setModifier (task : ExtractTask) (m : String) : ExtractTask := { task with modifier := m }

/-- `task` with its `partition` option replaced. -/
def setPartition (task : ExtractTask) (b : Option Bool) : ExtractTask :=
  { task with options := { task.options with partition := b } }

/-- A concrete row payload at a given timestamp, for concrete evaluations. -/
def rowAt (t : Timestamp) : Row := ⟨t, 1, 2, 3, 4, 5⟩

/-- A concrete fully-populated options dict. -/
def sampleOptions : Options := ⟨some "parquet", some false, some "zstd", some "./out", some false⟩

/-- A concrete task: parquet output, window 2024-01-01 00:00 .. 12:00, no modifier. -/
def sampleTask : ExtractTask :=
  ⟨"EURUSD", "1h", "in.csv", ⟨2024, 1, 1, 0, 0, 0⟩, ⟨2024, 1, 1, 12, 0, 0⟩, "", sampleOptions⟩

/-- Concrete source rows: two inside the sample window, one outside. -/
def sampleRows : List Row :=
  [rowAt ⟨2024, 1, 1, 1, 0, 0⟩, rowAt ⟨2024, 1, 1, 2, 0, 0⟩, rowAt ⟨2024, 1, 1, 13, 0, 0⟩]

/-- The sample task with csv output, unpartitioned. -/
def csvTask : ExtractTask :=
  { sampleTask with options := { sampleOptions with output_type := some "csv" } }

/-- The sample task with csv output, partitioned. -/
def csvPartTask : ExtractTask :=
  { sampleTask with
    options := { sampleOptions with output_type := some "csv", partition := some true } }

/-- The sample task with an unsupported output type. -/
def badTypeTask : ExtractTask :=
  { sampleTask with options := { sampleOptions with output_type := some "json" } }

/-- The sample task in dry-run mode. -/
def dryTask : ExtractTask :=
  { sampleTask with options := { sampleOptions with dry_run := some true } }

/-- The sample task with no `dry_run` key in its options. -/
def noDryTask : ExtractTask :=
  { sampleTask with options := { sampleOptions with dry_run := none } }

/-- The sample task with an options dict holding only `dry_run`. -/
def noneOptsTask : ExtractTask :=
  { sampleTask with options := ⟨none, none, none, none, some false⟩ }

/-- The sample task with the skiplast modifier. -/
def skiplastTask : ExtractTask := { sampleTask with modifier := "skiplast" }

/-- The skiplast task with the window ending before the file's maximum
timestamp. -/
def skiplastTaskOutside : ExtractTask :=
  { skiplastTask with untilTs := ⟨2024, 1, 1, 2, 0, 0⟩ }

/-- Source rows for the skiplast scenario: the maximum timestamp 02:00 is
carried by two rows, one earlier row at 01:00. -/
def skipRows : List Row :=
  [rowAt ⟨2024, 1, 1, 1, 0, 0⟩, rowAt ⟨2024, 1, 1, 2, 0, 0⟩,
   ⟨⟨2024, 1, 1, 2, 0, 0⟩, 9, 9, 9, 9, 9⟩]

theorem charToDigit_dChar (k : Nat) (h : k < 10) : charToDigit (dChar k) = some k := by
  interval_cases k <;> decide

theorem charToDigit_digitChar (d : Nat) : charToDigit (digitChar d) = some (d % 10) := by
  have h : d % 10 < 10 := Nat.mod_lt _ (by omega)
  simpa [digitChar] using charToDigit_dChar (d % 10) h

theorem strptimeTs_timestampCast (t : Timestamp) :
    strptimeTs (timestampCast t)
      = some ⟨t.year % 10000, t.month % 100, t.day % 100,
              t.hour % 100, t.minute % 100, t.second % 100⟩ := by
  obtain ⟨y, mo, d, h, mi, s⟩ := t
  simp only [timestampCast, pad4, pad2, List.cons_append, List.nil_append]
  simp [strptimeTs, charToDigit_digitChar]
  refine ⟨?_, ?_, ?_, ?_, ?_, ?_⟩ <;> omega

theorem pad4_mod (n : Nat) : pad4 (n % 10000) = pad4 n := by
  unfold pad4 digitChar
  have e1 : n % 10000 / 1000 % 10 = n / 1000 % 10 := by omega
  have e2 : n % 10000 / 100 % 10 = n / 100 % 10 := by omega
  have e3 : n % 10000 / 10 % 10 = n / 10 % 10 := by omega
  have e4 : n % 10000 % 10 = n % 10 := by omega
  rw [e1, e2, e3, e4]

theorem normalizeTime_eq (t : Timestamp) :
    normalizeTime t
      = ⟨t.year % 10000, t.month % 100, t.day % 100,
         t.hour % 100, t.minute % 100, t.second % 100⟩ := by
  simp [normalizeTime, strptimeTs_timestampCast]

/-- C6: every row of the output dataset carries a `year` column equal to the
4-digit calendar year of that row's emitted (normalised) `time` column; the
normalisation `strptime(CAST(time AS VARCHAR))` preserves the calendar year
at second granularity, so deriving `year` from the raw value agrees with
deriving it from the normalised value. -/
theorem C6_year_from_normalized_time (task : ExtractTask) (fileRows : List Row) :
    ∀ out ∈ copyDataset task fileRows, out.year = yearStr out.time := by
  intro out hout
  simp only [copyDataset, List.mem_map, List.mem_filter] at hout
  obtain ⟨r, _, rfl⟩ := hout
  simp only [transformRow, yearStr, normalizeTime_eq]
  exact (congrArg String.mk (pad4_mod r.time.year)).symm

/-- Witness for C6 at a concrete task and source file. -/
theorem C6_witness :
    transformRow sampleTask (rowAt ⟨2024, 1, 1, 1, 0, 0⟩) ∈ copyDataset sampleTask sampleRows
    ∧ (transformRow sampleTask (rowAt ⟨2024, 1, 1, 1, 0, 0⟩)).year
        = yearStr (transformRow sampleTask (rowAt ⟨2024, 1, 1, 1, 0, 0⟩)).time :=
  ⟨by decide, C6_year_from_normalized_time sampleTask sampleRows _ (by decide)⟩

/-- C9: `fork_extract` is the multiprocessing wrapper and has semantics
identical to `extract_symbol`: same events, same return value, same raised
error, for every task and environment. -/
theorem C9_fork_extract_id (task : ExtractTask) (fileRows : List Row)
    (uuidStr : String) (execOk : Bool) :
    fork_extract task fileRows uuidStr execOk = extract_symbol task fileRows uuidStr execOk :=
  rfl

theorem maxStep_le_left (m : Timestamp) (x : Row) : m.key ≤ (maxStep m x).key := by
  unfold maxStep
  split <;> omega

theorem maxStep_le_right (m : Timestamp) (x : Row) : x.time.key ≤ (maxStep m x).key := by
  unfold maxStep
  split <;> omega

theorem foldl_maxStep_le_init (l : List Row) :
    ∀ init : Timestamp, init.key ≤ (l.foldl maxStep init).key := by
  induction l with
  | nil => intro init; simp
  | cons x xs ih =>
    intro init
    rw [List.foldl_cons]
    exact le_trans (maxStep_le_left init x) (ih (maxStep init x))

theorem foldl_maxStep_ub (l : List Row) :
    ∀ init : Timestamp, ∀ r ∈ l, r.time.key ≤ (l.foldl maxStep init).key := by
  induction l with
  | nil => simp
  | cons x xs ih =>
    intro init r hr
    rw [List.foldl_cons]
    rcases List.mem_cons.mp hr with rfl | hr
    · exact le_trans (maxStep_le_right init r) (foldl_maxStep_le_init xs (maxStep init r))
    · exact ih (maxStep init x) r hr

theorem foldl_maxStep_mem (l : List Row) :
    ∀ init : Timestamp, l.foldl maxStep init = init ∨ ∃ r ∈ l, r.time = l.foldl maxStep init := by
  induction l with
  | nil => intro init; exact Or.inl rfl
  | cons x xs ih =>
    intro init
    rw [List.foldl_cons]
    rcases ih (maxStep init x) with h | ⟨r, hr, he⟩
    · rw [h]
      unfold maxStep
      split
      · exact Or.inr ⟨x, List.mem_cons_self x xs, rfl⟩
      · exact Or.inl rfl
    · exact Or.inr ⟨r, List.mem_cons_of_mem x hr, he⟩

theorem maxTime_ub (l : List Row) (m : Timestamp) (hm : maxTime l = some m) :
    ∀ r ∈ l, r.time.key ≤ m.key := by
  match l with
  | [] => simp [maxTime] at hm
  | x :: xs =>
    simp only [maxTime, Option.some.injEq] at hm
    subst hm
    intro r hr
    rcases List.mem_cons.mp hr with rfl | hr
    · exact foldl_maxStep_le_init xs r.time
    · exact foldl_maxStep_ub xs x.time r hr

theorem maxTime_mem (l : List Row) (m : Timestamp) (hm : maxTime l = some m) :
    ∃ r ∈ l, r.time = m := by
  match l with
  | [] => simp [maxTime] at hm
  | x :: xs =>
    simp only [maxTime, Option.some.injEq] at hm
    subst hm
    rcases foldl_maxStep_mem xs x.time with h | ⟨r, hr, he⟩
    · exact ⟨x, List.mem_cons_self x xs, h.symm⟩
    · exact ⟨r, List.mem_cons_of_mem x hr, he⟩

theorem key_inj (a b : Timestamp) (ha : a.Valid) (hb : b.Valid) (h : a.key = b.key) : a = b := by
  obtain ⟨y1, mo1, d1, h1, mi1, s1⟩ := a
  obtain ⟨y2, mo2, d2, h2, mi2, s2⟩ := b
  simp only [Timestamp.Valid] at ha hb
  obtain ⟨hmo1, hd1, hh1, hmi1, hs1⟩ := ha
  obtain ⟨hmo2, hd2, hh2, hmi2, hs2⟩ := hb
  simp only [Timestamp.key] at h
  simp only [Timestamp.mk.injEq]
  refine ⟨?_, ?_, ?_, ?_, ?_, ?_⟩ <;> omega

theorem length_filter_split {α : Type} (l : List α) (p q : α → Bool) :
    (l.filter p).length
      = (l.filter (fun a => p a && q a)).length
        + (l.filter (fun a => p a && !q a)).length := by
  induction l with
  | nil => rfl
  | cons x xs ih =>
    by_cases hp : p x
    · by_cases hq : q x <;> simp [List.filter_cons, hp, hq, ih] <;> omega
    · simp [List.filter_cons, hp, ih]

theorem keepRow_not_skiplast (task : ExtractTask) (fileRows : List Row) (r : Row)
    (h : ¬ task.modifier = "skiplast") : keepRow task fileRows r = inWindow task r := by
  simp [keepRow, h]

theorem executeCopy_mem (task : ExtractTask) (fileRows : List Row) (uuidStr : String)
    (execOk : Bool) (hdry : task.options.dry_run = some false)
    (hty : resolvedOutputType task.options = "PARQUET" ∨ resolvedOutputType task.options = "CSV") :
    ∃ p fmt, Event.executeCopy p fmt (copyDataset task fileRows)
      ∈ (extract_symbol task fileRows uuidStr execOk).1 := by
  rcases hty with hty | hty
  · refine ⟨rootOutputDir task.options, parquetFmt (resolvedCompression task.options), ?_⟩
    cases execOk <;> simp [extract_symbol, hdry, hty, runCopy]
  · by_cases hp : resolvedPartition task.options
    · refine ⟨rootOutputDir task.options, csvPartFmt (resolvedCompression task.options), ?_⟩
      cases execOk <;> simp [extract_symbol, hdry, hty, hp, runCopy]
    · refine ⟨flatCsvPath (rootOutputDir task.options) task.symbol task.timeframe uuidStr,
        csvFlatFmt (resolvedCompression task.options), ?_⟩
      cases execOk <;> simp [extract_symbol, hdry, hty, hp, runCopy]

/-- C1: with an empty modifier and `dry_run = false`, the dataset handed to
the COPY execution is exactly the source rows whose timestamp satisfies
`time >= window_start AND time < window_end` (start inclusive, end
exclusive), each transformed by the SELECT projection; its row count is the
number M of in-window source rows. -/
theorem C1_window_filter (task : ExtractTask) (fileRows : List Row) (uuidStr : String)
    (execOk : Bool) (hmod : task.modifier = "") (hdry : task.options.dry_run = some false)
    (hty : resolvedOutputType task.options = "PARQUET" ∨ resolvedOutputType task.options = "CSV") :
    (∃ p fmt, Event.executeCopy p fmt
        ((fileRows.filter (inWindow task)).map (transformRow task))
        ∈ (extract_symbol task fileRows uuidStr execOk).1)
    ∧ ((fileRows.filter (inWindow task)).map (transformRow task)).length
        = (fileRows.filter (inWindow task)).length := by
  have hkr : ∀ r ∈ fileRows, keepRow task fileRows r = inWindow task r := by
    intro r _
    exact keepRow_not_skiplast task fileRows r (by simp [hmod])
  have hds : copyDataset task fileRows
      = (fileRows.filter (inWindow task)).map (transformRow task) := by
    unfold copyDataset
    rw [List.filter_congr hkr]
  obtain ⟨p, fmt, hm⟩ := executeCopy_mem task fileRows uuidStr execOk hdry hty
  rw [hds] at hm
  exact ⟨⟨p, fmt, hm⟩, by simp⟩

/-- Witness for C1 at a concrete task (parquet, window 00:00..12:00) and a
source file with two in-window rows and one outside. -/
theorem C1_witness :
    (∃ p fmt, Event.executeCopy p fmt
        ((sampleRows.filter (inWindow sampleTask)).map (transformRow sampleTask))
        ∈ (extract_symbol sampleTask sampleRows "u" true).1)
    ∧ ((sampleRows.filter (inWindow sampleTask)).map (transformRow sampleTask)).length
        = (sampleRows.filter (inWindow sampleTask)).length :=
  C1_window_filter sampleTask sampleRows "u" true rfl rfl (Or.inl (by decide))

/-- C2: with `modifier = skiplast` the WHERE clause additionally requires
`time < MAX(time over the whole unfiltered file)`.  When that maximum `m`
lies inside the window, the output row count drops by exactly the number of
rows carrying timestamp `m`; when it lies outside the window, the output
dataset is unchanged from the empty-modifier run of the same task. -/
theorem C2_skiplast (task : ExtractTask) (fileRows : List Row) (m : Timestamp)
    (hmod : task.modifier = "skiplast")
    (hmax : maxTime fileRows = some m)
    (hvalid : ∀ r ∈ fileRows, r.time.Valid) :
    (inWindowTs task m = true →
      (copyDataset task fileRows).length
        = (fileRows.filter (inWindow task)).length
          - (fileRows.filter (fun r => decide (r.time = m))).length)
    ∧ (inWindowTs task m = false →
      copyDataset task fileRows = copyDataset (setModifier task "") fileRows) := by
  have hub : ∀ r ∈ fileRows, r.time.key ≤ m.key := maxTime_ub fileRows m hmax
  have hkr : ∀ r ∈ fileRows,
      keepRow task fileRows r = (inWindow task r && decide (r.time.key < m.key)) := by
    intro r _
    simp [keepRow, hmod, hmax]
  constructor
  · intro hin
    obtain ⟨rm, hrm, hrme⟩ := maxTime_mem fileRows m hmax
    have hmv : m.Valid := hrme ▸ hvalid rm hrm
    have h1 : fileRows.filter (keepRow task fileRows)
        = fileRows.filter (fun r => inWindow task r && !(decide (r.time = m))) := by
      refine List.filter_congr ?_
      intro r hr
      rw [hkr r hr]
      have hu := hub r hr
      have hv := hvalid r hr
      by_cases he : r.time = m
      · simp [he]
      · have hk : ¬ r.time.key = m.key := fun hk => he (key_inj _ _ hv hmv hk)
        have hlt : r.time.key < m.key := by omega
        simp [he, hlt]
    have h2 : fileRows.filter (fun r => inWindow task r && decide (r.time = m))
        = fileRows.filter (fun r => decide (r.time = m)) := by
      refine List.filter_congr ?_
      intro r hr
      by_cases he : r.time = m
      · simp [he, inWindow, hin]
      · simp [he]
    have hsplit := length_filter_split fileRows (inWindow task) (fun r => decide (r.time = m))
    unfold copyDataset
    rw [List.length_map, h1]
    rw [h2] at hsplit
    omega
  · intro hout
    unfold copyDataset
    have htr : transformRow (setModifier task "") = transformRow task := rfl
    rw [htr]
    congr 1
    refine List.filter_congr ?_
    intro r hr
    rw [hkr r hr]
    have hrhs : keepRow (setModifier task "") fileRows r = inWindow task r := by
      have := keepRow_not_skiplast (setModifier task "") fileRows r (by simp [setModifier])
      simpa [setModifier, inWindow] using this
    rw [hrhs]
    by_cases hw : inWindow task r
    · have hu := hub r hr
      have hlt : r.time.key < m.key := by
        rcases Nat.lt_or_ge r.time.key m.key with hlt | hge
        · exact hlt
        · have hk : r.time.key = m.key := by omega
          have heq : inWindowTs task r.time = inWindowTs task m := by
            unfold inWindowTs
            rw [hk]
          rw [inWindow, heq, hout] at hw
          exact absurd hw (by simp)
      simp [hw, hlt]
    · simp [Bool.eq_false_iff.mpr hw]

/-- Witness for C2: on a file whose maximum timestamp 02:00 is carried by
two rows, the in-window case drops exactly those two rows, and with the
window ending at 02:00 (maximum outside the window) the skiplast output
equals the empty-modifier output. -/
theorem C2_witness :
    ((copyDataset skiplastTask skipRows).length
      = (skipRows.filter (inWindow skiplastTask)).length
        - (skipRows.filter (fun r => decide (r.time = ⟨2024, 1, 1, 2, 0, 0⟩))).length)
    ∧ (copyDataset skiplastTaskOutside skipRows
      = copyDataset (setModifier skiplastTaskOutside "") skipRows) :=
  ⟨(C2_skiplast skiplastTask skipRows ⟨2024, 1, 1, 2, 0, 0⟩ rfl (by decide) (by decide)).1
      (by decide),
   (C2_skiplast skiplastTaskOutside skipRows ⟨2024, 1, 1, 2, 0, 0⟩ rfl (by decide) (by decide)).2
      (by decide)⟩

/-- C3 counterexample: for the concrete task `badTypeTask` (output type
`json`, `dry_run = false`, output dir `./out`) the call raises the
unsupported-output-type error, but its event trace already contains the
creation of the root output directory: the error is NOT raised before the
directory is created, refuting the claim as stated. -/
theorem C3_counterexample :
    extract_symbol badTypeTask [] "u" true
      = ([Event.mkdir "./out"],
         Except.error (ExtractError.valueError "Unsupported output type: JSON"))
    ∧ Event.mkdir "./out" ∈ (extract_symbol badTypeTask [] "u" true).1 := by
  constructor
  · rfl
  · decide

/-- C3 amended: with `dry_run = false` and an output type outside
{parquet, csv}, the call fails with the unsupported-output-type
`ValueError` before any engine session is opened and before any output
file is written — but only after the root output directory has been
created (the `mkdir` precedes the type check in the code). -/
theorem C3_amended (task : ExtractTask) (fileRows : List Row) (uuidStr : String)
    (execOk : Bool) (hdry : task.options.dry_run = some false)
    (hty : ¬ (resolvedOutputType task.options = "PARQUET"
              ∨ resolvedOutputType task.options = "CSV")) :
    extract_symbol task fileRows uuidStr execOk
      = ([Event.mkdir (rootOutputDir task.options)],
         Except.error (ExtractError.valueError
           ("Unsupported output type: " ++ resolvedOutputType task.options))) := by
  push_neg at hty
  simp [extract_symbol, hdry, hty.1, hty.2]

/-- Witness for C3's amended theorem at the concrete `badTypeTask`. -/
theorem C3_amended_witness :
    extract_symbol badTypeTask [] "u" true
      = ([Event.mkdir (rootOutputDir badTypeTask.options)],
         Except.error (ExtractError.valueError
           ("Unsupported output type: " ++ resolvedOutputType badTypeTask.options))) :=
  C3_amended badTypeTask [] "u" true rfl (by decide)

/-- C8 counterexample: for the concrete `sampleTask` with a failing COPY
execution, the engine session is opened (`connect` is in the trace), the
call raises, and `close` never happens: the session is NOT closed on every
exit path, refuting the claim as stated. -/
theorem C8_counterexample :
    (extract_symbol sampleTask [] "u" false).2 = Except.error ExtractError.engineError
    ∧ Event.connect ∈ (extract_symbol sampleTask [] "u" false).1
    ∧ Event.closeCon ∉ (extract_symbol sampleTask [] "u" false).1 := by
  refine ⟨rfl, by decide, by decide⟩

/-- C8 amended: each non-dry-run call opens its own engine session; on the
success path the session is closed before the call returns, but when the
bulk-copy execution raises, the close call is skipped and the engine error
propagates with the session left unclosed. -/
theorem C8_amended (task : ExtractTask) (fileRows : List Row) (uuidStr : String)
    (hdry : task.options.dry_run = some false)
    (hty : resolvedOutputType task.options = "PARQUET"
           ∨ resolvedOutputType task.options = "CSV") :
    (Event.connect ∈ (extract_symbol task fileRows uuidStr true).1
      ∧ Event.closeCon ∈ (extract_symbol task fileRows uuidStr true).1
      ∧ (extract_symbol task fileRows uuidStr true).2 = Except.ok true)
    ∧ (Event.connect ∈ (extract_symbol task fileRows uuidStr false).1
      ∧ Event.closeCon ∉ (extract_symbol task fileRows uuidStr false).1
      ∧ (extract_symbol task fileRows uuidStr false).2
          = Except.error ExtractError.engineError) := by
  rcases hty with hty | hty
  · refine ⟨⟨?_, ?_, ?_⟩, ⟨?_, ?_, ?_⟩⟩ <;> simp [extract_symbol, hdry, hty, runCopy]
  · by_cases hp : resolvedPartition task.options
    · refine ⟨⟨?_, ?_, ?_⟩, ⟨?_, ?_, ?_⟩⟩ <;> simp [extract_symbol, hdry, hty, hp, runCopy]
    · refine ⟨⟨?_, ?_, ?_⟩, ⟨?_, ?_, ?_⟩⟩ <;> simp [extract_symbol, hdry, hty, hp, runCopy]

/-- Witness for C8's amended theorem at the concrete `sampleTask`. -/
theorem C8_amended_witness :
    (Event.connect ∈ (extract_symbol sampleTask [] "u" true).1
      ∧ Event.closeCon ∈ (extract_symbol sampleTask [] "u" true).1
      ∧ (extract_symbol sampleTask [] "u" true).2 = Except.ok true)
    ∧ (Event.connect ∈ (extract_symbol sampleTask [] "u" false).1
      ∧ Event.closeCon ∉ (extract_symbol sampleTask [] "u" false).1
      ∧ (extract_symbol sampleTask [] "u" false).2
          = Except.error ExtractError.engineError) :=
  C8_amended sampleTask [] "u" rfl (Or.inl (by decide))

theorem flatCsvPath_inj (root s tf u1 u2 : String)
    (h : flatCsvPath root s tf u1 = flatCsvPath root s tf u2) : u1 = u2 := by
  unfold flatCsvPath at h
  have hd := congrArg String.data h
  simp only [String.data_append, List.append_assoc] at hd
  have h1 := List.append_cancel_left hd
  have h2 := List.append_cancel_left h1
  have h3 := List.append_cancel_left h2
  have h4 := List.append_cancel_left h3
  have h5 := List.append_cancel_left h4
  have h6 := List.append_cancel_left h5
  exact String.ext (List.append_cancel_right h6)

/-- C4: the call returns the skip result `False` exactly when
`options[dry_run]` is `True`, regardless of all other options; a dry run
produces only the diagnostic print (no mkdir, no session, no copy); a
non-dry run returns `True` exactly when the export executes successfully,
and otherwise raises. -/
theorem C4_dry_run_skip (task : ExtractTask) (fileRows : List Row) (uuidStr : String)
    (execOk : Bool) :
    ((extract_symbol task fileRows uuidStr execOk).2 = Except.ok false
        ↔ task.options.dry_run = some true)
    ∧ (task.options.dry_run = some true →
        extract_symbol task fileRows uuidStr execOk
          = ([Event.print (dryRunMsg task)], Except.ok false))
    ∧ ((extract_symbol task fileRows uuidStr execOk).2 = Except.ok true
        ↔ (task.options.dry_run = some false
           ∧ (resolvedOutputType task.options = "PARQUET"
              ∨ resolvedOutputType task.options = "CSV")
           ∧ execOk = true))
    ∧ (task.options.dry_run = some false →
        (extract_symbol task fileRows uuidStr execOk).2 = Except.ok true
          ∨ ∃ err, (extract_symbol task fileRows uuidStr execOk).2 = Except.error err) := by
  rcases hdr : task.options.dry_run with _ | b
  · simp [extract_symbol, hdr]
  · cases b
    · by_cases h1 : resolvedOutputType task.options = "PARQUET"
      · cases execOk <;> simp [extract_symbol, hdr, h1, runCopy]
      · by_cases h2 : resolvedOutputType task.options = "CSV"
        · by_cases hp : resolvedPartition task.options <;>
            cases execOk <;> simp [extract_symbol, hdr, h1, h2, hp, runCopy]
        · simp [extract_symbol, hdr, h1, h2]
    · simp [extract_symbol, hdr]

/-- Witness for C4 at the concrete dry-run task. -/
theorem C4_witness :
    extract_symbol dryTask [] "u" true = ([Event.print (dryRunMsg dryTask)], Except.ok false) :=
  (C4_dry_run_skip dryTask [] "u" true).2.1 rfl

/-- C10: `dry_run` is the only option without a default — when the key is
absent the call raises a `KeyError` before creating any directory, opening
any session, or doing any other I/O (the trace is empty).  The other keys
default: `output_type` to `parquet`, `partition` to `False`, `compression`
to `zstd`, and `output_dir` to `./data/temp/<lowercased output type>` —
each absent key behaves exactly as that explicit value. -/
theorem C10_option_defaults (task : ExtractTask) (fileRows : List Row) (uuidStr : String)
    (execOk : Bool) :
    (task.options.dry_run = none →
      extract_symbol task fileRows uuidStr execOk
        = ([], Except.error (ExtractError.keyError "dry_run")))
    ∧ (task.options.output_type = none →
      extract_symbol task fileRows uuidStr execOk
        = extract_symbol
            { task with options := { task.options with output_type := some "parquet" } }
            fileRows uuidStr execOk)
    ∧ (task.options.partition = none →
      extract_symbol task fileRows uuidStr execOk
        = extract_symbol
            { task with options := { task.options with partition := some false } }
            fileRows uuidStr execOk)
    ∧ (task.options.compression = none →
      extract_symbol task fileRows uuidStr execOk
        = extract_symbol
            { task with options := { task.options with compression := some "zstd" } }
            fileRows uuidStr execOk)
    ∧ (task.options.output_dir = none →
      extract_symbol task fileRows uuidStr execOk
        = extract_symbol
            { task with options := { task.options with
                output_dir := some ("./data/temp/" ++ toLowerStr (resolvedOutputType task.options)) } }
            fileRows uuidStr execOk) := by
  obtain ⟨s, tf, ip, a, u, md, ⟨ot, pt, cp, od, dr⟩⟩ := task
  refine ⟨?_, ?_, ?_, ?_, ?_⟩ <;> intro h <;> simp only at h <;> subst h <;> rfl

/-- Witness for C10: the missing-key failure at a concrete task, and the
`output_type` default at a concrete task whose options hold only
`dry_run`. -/
theorem C10_witness :
    extract_symbol noDryTask [] "u" true = ([], Except.error (ExtractError.keyError "dry_run"))
    ∧ extract_symbol noneOptsTask [] "u" true
        = extract_symbol
            { noneOptsTask with
              options := { noneOptsTask.options with output_type := some "parquet" } }
            [] "u" true :=
  ⟨(C10_option_defaults noDryTask [] "u" true).1 rfl,
   (C10_option_defaults noneOptsTask [] "u" true).2.1 rfl⟩

/-- C5: with parquet output and `dry_run = false` the call requests a
dataset partitioned by (symbol, year) with the unique per-part filename
pattern, and the `partition` option is ignored: replacing it by any value
leaves the whole call unchanged. -/
theorem C5_parquet_ignores_partition (task : ExtractTask) (fileRows : List Row)
    (uuidStr : String) (execOk : Bool) (b : Option Bool)
    (hdry : task.options.dry_run = some false)
    (hty : resolvedOutputType task.options = "PARQUET") :
    extract_symbol (setPartition task b) fileRows uuidStr execOk
      = extract_symbol task fileRows uuidStr execOk
    ∧ Event.executeCopy (rootOutputDir task.options)
        (parquetFmt (resolvedCompression task.options)) (copyDataset task fileRows)
        ∈ (extract_symbol task fileRows uuidStr execOk).1
    ∧ (parquetFmt (resolvedCompression task.options)).partition_by = some ["symbol", "year"]
    ∧ (parquetFmt (resolvedCompression task.options)).filename_pattern
        = some "part_\x7buuid\x7d" := by
  have hty' : resolvedOutputType (setPartition task b).options
      = resolvedOutputType task.options := rfl
  have hdry' : (setPartition task b).options.dry_run = task.options.dry_run := rfl
  have hcd : copyDataset (setPartition task b) fileRows = copyDataset task fileRows := rfl
  have hroot : rootOutputDir (setPartition task b).options = rootOutputDir task.options := rfl
  have hcomp : resolvedCompression (setPartition task b).options
      = resolvedCompression task.options := rfl
  refine ⟨?_, ?_, rfl, rfl⟩
  · simp only [extract_symbol, hty', hdry', hcd, hroot, hcomp, hdry, hty]
    cases execOk <;> simp [runCopy, hcd]
  · cases execOk <;> simp [extract_symbol, hdry, hty, runCopy]

/-- Witness for C5 at the concrete parquet `sampleTask`, flipping the
partition option to `True`. -/
theorem C5_witness :
    extract_symbol (setPartition sampleTask (some true)) [] "u" true
      = extract_symbol sampleTask [] "u" true
    ∧ Event.executeCopy (rootOutputDir sampleTask.options)
        (parquetFmt (resolvedCompression sampleTask.options)) (copyDataset sampleTask [])
        ∈ (extract_symbol sampleTask [] "u" true).1
    ∧ (parquetFmt (resolvedCompression sampleTask.options)).partition_by
        = some ["symbol", "year"]
    ∧ (parquetFmt (resolvedCompression sampleTask.options)).filename_pattern
        = some "part_\x7buuid\x7d" :=
  C5_parquet_ignores_partition sampleTask [] "u" true (some true) rfl (by decide)

/-- C7: with csv output and `dry_run = false`, an unpartitioned call issues
exactly one COPY to the single file
`output_dir/{symbol}_{timeframe}_{uuid}.csv` with header, comma delimiter
and the configured compression, carrying all qualifying rows; distinct
uuids give distinct file names; a partitioned call instead issues one COPY
to the root directory partitioned by (symbol, year) with per-part unique
names. -/
theorem C7_csv_layout (task : ExtractTask) (fileRows : List Row) (uuidStr : String)
    (execOk : Bool) (hdry : task.options.dry_run = some false)
    (hty : resolvedOutputType task.options = "CSV") :
    (resolvedPartition task.options = false →
      extract_symbol task fileRows uuidStr execOk
        = ([Event.mkdir (rootOutputDir task.options), Event.connect,
            Event.executeCopy
              (flatCsvPath (rootOutputDir task.options) task.symbol task.timeframe uuidStr)
              (csvFlatFmt (resolvedCompression task.options))
              (copyDataset task fileRows)]
            ++ (if execOk then [Event.closeCon] else []),
          if execOk then Except.ok true else Except.error ExtractError.engineError))
    ∧ (resolvedPartition task.options = true →
      extract_symbol task fileRows uuidStr execOk
        = ([Event.mkdir (rootOutputDir task.options), Event.connect,
            Event.executeCopy (rootOutputDir task.options)
              (csvPartFmt (resolvedCompression task.options))
              (copyDataset task fileRows)]
            ++ (if execOk then [Event.closeCon] else []),
          if execOk then Except.ok true else Except.error ExtractError.engineError))
    ∧ ((csvFlatFmt (resolvedCompression task.options)).header = some true
       ∧ (csvFlatFmt (resolvedCompression task.options)).delimiter = some ","
       ∧ (csvFlatFmt (resolvedCompression task.options)).partition_by = none)
    ∧ ((csvPartFmt (resolvedCompression task.options)).partition_by = some ["symbol", "year"]
       ∧ (csvPartFmt (resolvedCompression task.options)).filename_pattern
           = some "part_\x7buuid\x7d.csv")
    ∧ (∀ u2 : String, u2 ≠ uuidStr →
        flatCsvPath (rootOutputDir task.options) task.symbol task.timeframe u2
          ≠ flatCsvPath (rootOutputDir task.options) task.symbol task.timeframe uuidStr) := by
  refine ⟨?_, ?_, ⟨rfl, rfl, rfl⟩, ⟨rfl, rfl⟩, ?_⟩
  · intro hp
    cases execOk <;> simp [extract_symbol, hdry, hty, hp, runCopy]
  · intro hp
    cases execOk <;> simp [extract_symbol, hdry, hty, hp, runCopy]
  · intro u2 hne heq
    exact hne (flatCsvPath_inj (rootOutputDir task.options) task.symbol task.timeframe u2
      uuidStr heq)

/-- Witness for C7 at the concrete unpartitioned csv task. -/
theorem C7_witness :
    extract_symbol csvTask sampleRows "u" true
      = ([Event.mkdir (rootOutputDir csvTask.options), Event.connect,
          Event.executeCopy
            (flatCsvPath (rootOutputDir csvTask.options) csvTask.symbol csvTask.timeframe "u")
            (csvFlatFmt (resolvedCompression csvTask.options))
            (copyDataset csvTask sampleRows)]
          ++ (if true then [Event.closeCon] else []),
        if true then Except.ok true else Except.error ExtractError.engineError) :=
  (C7_csv_layout csvTask sampleRows "u" true rfl (by decide)).1 (by decide)
